import Mathlib

/-!
# Verification of the production-control backend report assembler

A shallow embedding of `src/main.py` of the `producao-controle-backend`
repository: the record-store endpoints (`salvar_registro`, `obter_registro`),
the PDF endpoint guard (`gerar_pdf`) and, centrally, the report assembler
`_build_pdf_elements`.

Python values arriving from a JSON body are modelled by `PyVal` (floats are
modelled as exact rationals; the JSON payloads this service receives carry
decimal literals, so every incoming float denotes a decimal rational).
Exceptions are modelled by `Except String`: a `.error` result corresponds to
the Python function raising.
-/

namespace PC

/-- A Python value as produced by `request.get_json()`: `None`, booleans,
ints, floats (modelled as exact rationals), strings, lists and string-keyed
dicts. Python `None` and JSON `null` are the same runtime object, so one
constructor covers both. -/
inductive PyVal where
  | none
  | bool (b : Bool)
  | int (n : Int)
  | float (q : ℚ)
  | str (s : String)
  | list (xs : List PyVal)
  | dict (fields : List (String × PyVal))
deriving Repr

/-- A Python dict with string keys, as a JSON object parses to. -/
abbrev PyDict := List (String × PyVal)

/-- Python truthiness (`bool(v)`): `None`, `False`, zero numbers, and empty
strings/lists/dicts are falsy. -/
def truthy : PyVal → Bool
  | .none => false
  | .bool b => b
  | .int n => n != 0
  | .float q => q != 0
  | .str s => s != ""
  | .list xs => !xs.isEmpty
  | .dict fs => !fs.isEmpty

/-- The numeric reading Python equality gives a scalar: `True == 1 == 1.0`. -/
def pyNum : PyVal → Option ℚ
  | .bool b => some (if b then 1 else 0)
  | .int n => some (n : ℚ)
  | .float q => some q
  | _ => Option.none

/-- Python `==` on the values this program compares: numbers compare by
value across `bool`/`int`/`float`, strings by content, `None` only to
itself. Containers are compared elementwise by Python, but in this program
`pyEq` only ever meets a container on one side of the comparison with `''`
(where Python also answers `False`) or as a dict key, which raises
`TypeError: unhashable` before any comparison; so the container-container
case is left `false`. -/
def pyEq (a b : PyVal) : Bool :=
  match pyNum a, pyNum b with
  | some x, some y => x == y
  | _, _ =>
    match a, b with
    | .none, .none => true
    | .str s, .str t => s == t
    | _, _ => false

/-- `d.get(k)` on a Python dict: the stored value, or `None` if absent. -/
def pyGet (d : PyDict) (k : String) : PyVal :=
  match d.find? (fun kv => kv.1 == k) with
  | some kv => kv.2
  | Option.none => .none

/-- `d.get(k, default)` on a Python dict. -/
def pyGetD (d : PyDict) (k : String) (default : PyVal) : PyVal :=
  match d.find? (fun kv => kv.1 == k) with
  | some kv => kv.2
  | Option.none => default

/-- `v is None` (the stored JSON `null` is Python `None`). -/
def isNone : PyVal → Bool
  | .none => true
  | _ => false

/-! ## Python `int(str)` and `float(str)` -/

/-- Digit run with single underscores allowed between digits, as Python's
`int`/`float` literals accept: an underscore must directly follow a digit
of the run (`cnt > 0`) and be directly followed by one, so `"_1"`, `"1_"`
and `"1__2"` all stop the run. Accumulates the value. Stops at the first
character that cannot extend the run, returning (value, digit count, rest). -/
def takeDigitsU : List Char → Nat → Nat → Nat × Nat × List Char
  | [], acc, cnt => (acc, cnt, [])
  | c :: cs, acc, cnt =>
    if c.isDigit then takeDigitsU cs (acc * 10 + (c.toNat - 48)) (cnt + 1)
    else if c == '_' && cnt > 0 then
      match cs with
      | c2 :: cs2 =>
        if c2.isDigit then takeDigitsU cs2 (acc * 10 + (c2.toNat - 48)) (cnt + 1)
        else (acc, cnt, c :: cs)
      | [] => (acc, cnt, c :: cs)
    else (acc, cnt, c :: cs)

/-- The ASCII whitespace characters Python's `str.strip()` (hence `int()`
and `float()`) remove; the non-ASCII Unicode space characters it also
strips are not modelled. -/
def pyWs (c : Char) : Bool :=
  c == ' ' || c == '\t' || c == '\n' || c == '\r' ||
  c == '\x0b' || c == '\x0c' ||
  c == '\x1c' || c == '\x1d' || c == '\x1e' || c == '\x1f' || c == '\x85'

/-- Strip leading and trailing whitespace, as `int()`/`float()` do. -/
def trimWs (s : String) : List Char :=
  ((s.toList.dropWhile pyWs).reverse.dropWhile pyWs).reverse

/-- Helper for `splitChar`: the accumulated current piece is kept
reversed. -/
def splitCharAux (c : Char) : List Char → List Char → List String
  | [], acc => [String.mk acc.reverse]
  | x :: xs, acc =>
    if x == c then String.mk acc.reverse :: splitCharAux c xs []
    else splitCharAux c xs (x :: acc)

/-- Python `s.split(sep)` for a one-character separator: splits at every
occurrence, keeping empty pieces (`"".split(':') == ['']`,
`"::".split(':') == ['', '', '']`). -/
def splitChar (c : Char) (s : String) : List String :=
  splitCharAux c s.toList []

/-- Python `int(s)` for a decimal string: optional sign, then digits (with
single underscores between digits); anything else raises `ValueError`,
modelled as `none`. Non-decimal bases and non-ASCII digits do not occur in
this program's inputs and are not modelled. -/
def pyInt (s : String) : Option Int :=
  let core : List Char → Option Nat := fun cs =>
    match takeDigitsU cs 0 0 with
    | (v, cnt, rest) => if cnt > 0 && rest.isEmpty then some v else Option.none
  match trimWs s with
  | [] => Option.none
  | c :: rest =>
    if c == '-' then (core rest).map (fun n => -(n : Int))
    else if c == '+' then (core rest).map (fun n => (n : Int))
    else (core (c :: rest)).map (fun n => (n : Int))

/-- The value of a CPython `float`: a finite value (modelled by the exact
rational it denotes, per this development's float convention), one of the
two infinities, or a NaN. -/
inductive PyF where
  | fin (q : ℚ)
  | pinf
  | ninf
  | nan
deriving DecidableEq

/-- The smallest magnitude that rounds to infinity under IEEE-754
round-to-nearest-even conversion to a 64-bit double: `2^1024 - 2^970`
(the midpoint between the largest finite double and `2^1024`, which ties
to even, i.e. away). `float(int)` raises `OverflowError` at and beyond
this bound; `float(str)` silently returns an infinity there. -/
def ovflBound : Nat := 2 ^ 1024 - 2 ^ 970

/-- The unsigned finite part of Python `float(s)`: digits (with single
underscores between digits) with optional fraction, optional exponent;
the whole list must be consumed. `none` models `ValueError`. -/
def pyFloatFin (cs : List Char) : Option ℚ :=
  match takeDigitsU cs 0 0 with
  | (ip, ipCnt, rest) =>
    let mant : Option (ℚ × List Char) :=
      match rest with
      | '.' :: r =>
        match takeDigitsU r 0 0 with
        | (fp, fpCnt, r2) =>
          if ipCnt + fpCnt > 0 then
            some ((ip : ℚ) + (fp : ℚ) / (10 : ℚ) ^ fpCnt, r2)
          else Option.none
      | _ => if ipCnt > 0 then some ((ip : ℚ), rest) else Option.none
    match mant with
    | Option.none => Option.none
    | some (v, r2) =>
      match r2 with
      | [] => some v
      | e :: r3 =>
        if e == 'e' || e == 'E' then
          let esigned : Bool × List Char :=
            match r3 with
            | c :: rr =>
              if c == '-' then (true, rr)
              else if c == '+' then (false, rr)
              else (false, r3)
            | [] => (false, [])
          match takeDigitsU esigned.2 0 0 with
          | (ev, ecnt, r4) =>
            if ecnt > 0 && r4.isEmpty then
              if v == 0 then some 0
              else
                some (v * (if esigned.1 then 1 / ((10 ^ ev : Nat) : ℚ)
                           else ((10 ^ ev : Nat) : ℚ)))
            else Option.none
        else Option.none

/-- Python `float(s)`: optional whitespace and sign, then a
case-insensitive `inf`/`infinity`/`nan` literal or a decimal literal;
a decimal value whose magnitude reaches `ovflBound` rounds to a signed
infinity (e.g. `float("1e400") == inf`), without an exception. `none`
models `ValueError`. Hex floats and non-ASCII digits are not modelled. -/
def pyFloat (s : String) : Option PyF :=
  let cs := trimWs s
  let signed : Bool × List Char :=
    match cs with
    | c :: rest =>
      if c == '-' then (true, rest)
      else if c == '+' then (false, rest)
      else (false, cs)
    | [] => (false, [])
  let neg := signed.1
  let low := signed.2.map Char.toLower
  if low == ['i', 'n', 'f'] || low == ['i', 'n', 'f', 'i', 'n', 'i', 't', 'y'] then
    some (if neg then PyF.ninf else PyF.pinf)
  else if low == ['n', 'a', 'n'] then some PyF.nan
  else
    match pyFloatFin signed.2 with
    | Option.none => Option.none
    | some a =>
      if (ovflBound : ℚ) ≤ a then some (if neg then PyF.ninf else PyF.pinf)
      else some (PyF.fin (if neg then -a else a))

/-! ## Formatting helpers (`str()`, f-strings) -/

/-- `f"{n:02d}"`: zero-pad to width two (zeros go after the sign, but a
negative number already has width at least two). -/
def fmt02 (n : Int) : String :=
  let s := toString n
  if s.length < 2 then "0" ++ s else s

/-- Two-digit zero padding for date components. -/
def pad2 (n : Nat) : String :=
  if n < 10 then "0" ++ toString n else toString n

/-- Round to the nearest integer, ties to even: how Python's fixed-point
float formatting rounds the (exactly represented) value. -/
def roundHalfEven (q : ℚ) : Int :=
  if q - (⌊q⌋ : ℚ) < 1 / 2 then ⌊q⌋
  else if 1 / 2 < q - (⌊q⌋ : ℚ) then ⌊q⌋ + 1
  else if ⌊q⌋ % 2 = 0 then ⌊q⌋ else ⌊q⌋ + 1

/-- `f"{q:.2f}"` on the rational modelling the float. The sign comes from
the value, not the rounded digits, so a negative value rounding to zero
prints `"-0.00"` as CPython does. -/
def formatFixed2 (q : ℚ) : String :=
  let n := roundHalfEven (q * 100)
  let sign := if q < 0 then "-" else ""
  let m := n.natAbs
  let r := m % 100
  sign ++ toString (m / 100) ++ "." ++ (if r < 10 then "0" else "") ++ toString r

/-- `str(float)` for the decimal rationals this program's floats denote:
the decimal digits without trailing zeros, printed positionally (with
`".0"` appended for integral values) while the decimal exponent lies in
`[-4, 15]`, and in CPython's scientific form otherwise (`1e-05`,
`1.5e+16`: mantissa point after the first digit, trailing zeros dropped,
sign and at least two digits on the exponent), matching the
shortest-roundtrip repr on the exactly-decimal values of this model. A
non-decimal rational (never produced by a JSON number) falls back to the
raw fraction. -/
def pystrFloat (q : ℚ) : String :=
  let sign := if q < 0 then "-" else ""
  let a := |q|
  match (List.range 450).find? (fun e => (a * (10 : ℚ) ^ e).den == 1) with
  | some e =>
    let n := (a * (10 : ℚ) ^ e).num.toNat
    if n == 0 then "0.0"
    else
      let ds := toString n
      let L := ds.length
      let E : Int := (L : Int) - 1 - (e : Int)
      if E < -4 || 16 ≤ E then
        let md := String.mk (ds.toList.reverse.dropWhile (fun c => c == '0')).reverse
        sign ++ md.take 1 ++ (if 1 < md.length then "." ++ md.drop 1 else "") ++
          "e" ++ (if E < 0 then "-" else "+") ++ pad2 E.natAbs
      else if e < L then
        sign ++ ds.take (L - e) ++ "." ++ (if e == 0 then "0" else ds.drop (L - e))
      else
        sign ++ "0." ++ String.mk (List.replicate (e - L) '0') ++ ds
  | Option.none => sign ++ toString a

mutual

/-- Python `repr(v)` (element form used inside `str` of containers).
String escaping beyond the quotes is not modelled. -/
def pyrepr : PyVal → String
  | .none => "None"
  | .bool b => if b then "True" else "False"
  | .int n => toString n
  | .float q => pystrFloat q
  | .str s => "\x27" ++ s ++ "\x27"
  | .list xs => "[" ++ pyreprList xs ++ "]"
  | .dict fs => "\x7b" ++ pyreprDict fs ++ "\x7d"

/-- Comma-joined reprs of list elements. -/
def pyreprList : List PyVal → String
  | [] => ""
  | [x] => pyrepr x
  | x :: xs => pyrepr x ++ ", " ++ pyreprList xs

/-- Comma-joined reprs of dict entries. -/
def pyreprDict : List (String × PyVal) → String
  | [] => ""
  | [kv] => "\x27" ++ kv.1 ++ "\x27: " ++ pyrepr kv.2
  | kv :: kvs => "\x27" ++ kv.1 ++ "\x27: " ++ pyrepr kv.2 ++ ", " ++ pyreprDict kvs

end

/-- Python `str(v)`: identity on strings, `repr` on everything else. -/
def pystr : PyVal → String
  | .str s => s
  | v => pyrepr v

/-! ## ISO date parsing (`datetime.fromisoformat` + `strftime("%d/%m/%Y")`) -/

/-- Gregorian leap year. -/
def isLeap (y : Nat) : Bool :=
  y % 4 == 0 && (y % 100 != 0 || y % 400 == 0)

/-- Days in a month, for date validation. -/
def daysInMonth (y m : Nat) : Nat :=
  if m == 2 then (if isLeap y then 29 else 28)
  else if m == 4 || m == 6 || m == 9 || m == 11 then 30
  else 31

/-- Value of an ASCII digit. -/
def dval (c : Char) : Nat := c.toNat - 48

/-- `parse_digits(p, var, 2)` of CPython's C parser: exactly two ASCII
digits. -/
def take2 : List Char → Option (Nat × List Char)
  | a :: b :: r =>
    if a.isDigit && b.isDigit then some (10 * dval a + dval b, r) else Option.none
  | _ => Option.none

/-- `parse_digits(p, var, n)`: exactly `n` ASCII digits, and their value. -/
def takeDigs : Nat → List Char → Option (Nat × List Char)
  | 0, r => some (0, r)
  | _ + 1, [] => Option.none
  | n + 1, c :: r =>
    if c.isDigit then
      match takeDigs n r with
      | some (v, rest) => some (dval c * 10 ^ n + v, rest)
      | Option.none => Option.none
    else Option.none

/-- CPython's `_FRACTION_CORRECTION` scaling of a fraction of `t` digits
to microseconds. -/
def fracScale : Nat → Nat
  | 1 => 100000
  | 2 => 10000
  | 3 => 1000
  | 4 => 100
  | 5 => 10
  | _ => 1

/-- The fractional tail of `parse_hh_mm_ss_ff`: up to six digits are
parsed and scaled to microseconds, any further characters must all be
digits (and are discarded). The caller only reaches this with a non-empty
list. -/
def parseFrac (cs : List Char) : Option Nat :=
  let t := min cs.length 6
  match takeDigs t cs with
  | some (v, rest) =>
    if rest.all Char.isDigit then some (v * fracScale t) else Option.none
  | Option.none => Option.none

/-- Result of CPython's `parse_hh_mm_ss_ff` over a (possibly
timezone-truncated) character slice: `full` is return value 0 (the slice
was consumed exactly), `oneJunk` is return value 1 (a component ended and
exactly one further character remained, which the C parser reads and
reports without failing — accepted only when a timezone follows), `err`
is any negative return. -/
inductive FF where
  | full (h m s f : Nat)
  | oneJunk (h m s f : Nat)
  | err

/-- Fraction tail wrapped into an `FF`. -/
def ffFrac (h m s : Nat) (cs : List Char) : FF :=
  match parseFrac cs with
  | some f => .full h m s f
  | Option.none => .err

/-- Third component (seconds) of `parse_hh_mm_ss_ff` and its ending. With
a `':'` separator style, a following `':'`, `'.'` or `','` all hand the
remainder to the fraction parser (the `':'` case is the C loop falling
out after its `continue`, which is why `"10:00:00:99"` parses with
`.99` of microseconds); without separators the remaining characters are
the fraction directly. The trailing-junk character must be a single
UTF-8 byte, i.e. ASCII — a multi-byte character is two or more junk
bytes to the C parser and fails. -/
def ffTail2 (h m : Nat) (hasSep : Bool) (cs : List Char) : FF :=
  match take2 cs with
  | Option.none => .err
  | some (s, r0) =>
    match r0 with
    | [] => .full h m s 0
    | c :: r1 =>
      if r1.isEmpty then (if c.toNat ≤ 127 then .oneJunk h m s 0 else .err)
      else if hasSep then
        if c == ':' || c == '.' || c == ',' then ffFrac h m s r1 else .err
      else
        if c == '.' || c == ',' then ffFrac h m s r1
        else ffFrac h m s (c :: r1)

/-- Second component (minutes) of `parse_hh_mm_ss_ff` and its ending. -/
def ffTail1 (h : Nat) (hasSep : Bool) (cs : List Char) : FF :=
  match take2 cs with
  | Option.none => .err
  | some (m, r0) =>
    match r0 with
    | [] => .full h m 0 0
    | c :: r1 =>
      if r1.isEmpty then (if c.toNat ≤ 127 then .oneJunk h m 0 0 else .err)
      else if hasSep then
        if c == ':' then ffTail2 h m true r1
        else if c == '.' || c == ',' then ffFrac h m 0 r1
        else .err
      else
        if c == '.' || c == ',' then ffFrac h m 0 r1
        else ffTail2 h m false (c :: r1)

/-- CPython's `parse_hh_mm_ss_ff`, first component: the character after
the hour fixes the separator style (`':'` or none). -/
def parseFF (cs : List Char) : FF :=
  match take2 cs with
  | Option.none => .err
  | some (h, r0) =>
    match r0 with
    | [] => .full h 0 0 0
    | c :: r1 =>
      if r1.isEmpty then (if c.toNat ≤ 127 then .oneJunk h 0 0 0 else .err)
      else if c == ':' then ffTail1 h true r1
      else if c == '.' || c == ',' then ffFrac h 0 0 r1
      else ffTail1 h false (c :: r1)

/-- The timezone scan of `parse_isoformat_time`: split the time string at
the first `'Z'`, `'+'` or `'-'`, if any. -/
def splitTz : List Char → List Char × Option (Char × List Char)
  | [] => ([], Option.none)
  | c :: cs =>
    if c == 'Z' || c == '+' || c == '-' then ([], some (c, cs))
    else
      match splitTz cs with
      | (pre, tz) => (c :: pre, tz)

/-- Validity of the timezone tail: `'Z'` must end the string; a signed
offset reuses the `hh[:mm[:ss[.ffffff]]]` grammar, must consume its slice
exactly, and its magnitude must stay under 24 hours (the components are
each two digits up to 99 and are not otherwise bounded, so `"+05:60"`
is a valid offset of six hours; the sub-second part can never push an
under-24h integer total over the bound). -/
def tzOk (tzc : Char) (tzstr : List Char) : Bool :=
  if tzc == 'Z' then tzstr.isEmpty
  else
    match parseFF tzstr with
    | .full th tm ts _ => th * 3600 + tm * 60 + ts < 86400
    | _ => false

/-- CPython's `parse_isoformat_time` plus the `datetime` constructor's
range checks, as a validity predicate (the time of day never influences
the printed date): scan for a timezone marker, parse the time slice —
which must be consumed exactly unless a timezone follows, in which case
one trailing junk byte is tolerated — then validate hour, minute, second
and the timezone. -/
def timeValid (cs : List Char) : Bool :=
  match splitTz cs with
  | (timestr, Option.none) =>
    match parseFF timestr with
    | .full h m s _ => h ≤ 23 && m ≤ 59 && s ≤ 59
    | _ => false
  | (timestr, some (tzc, tzstr)) =>
    match parseFF timestr with
    | .full h m s _ => h ≤ 23 && m ≤ 59 && s ≤ 59 && tzOk tzc tzstr
    | .oneJunk h m s _ => h ≤ 23 && m ≤ 59 && s ≤ 59 && tzOk tzc tzstr
    | .err => false

/-- CPython's `_find_isoformat_datetime_separator`: from the shape of the
first few characters, the position at which the date ends and a
single-character date/time separator may sit. `none` is the function
raising. Only called on strings of length at least 7. -/
def findSep (cs : List Char) : Option Nat :=
  if cs.length == 7 then some 7
  else if cs.get? 4 == some '-' then
    if cs.get? 5 == some 'W' then
      if 8 < cs.length && cs.get? 8 == some '-' then
        if cs.length == 9 then Option.none
        else if 10 < cs.length && ((cs.get? 10).getD ' ').isDigit then some 8
        else some 10
      else some 8
    else some 10
  else if cs.get? 4 == some 'W' then
    let idx := 7 + ((cs.drop 7).takeWhile Char.isDigit).length
    if idx < 9 then some idx
    else if idx % 2 == 0 then some 7 else some 8
  else some 8

/-- `_days_before_year(y)`: days between 0001-01-01 and January 1st of
year `y`. -/
def daysBeforeYear (y : Nat) : Nat :=
  (y - 1) * 365 + (y - 1) / 4 - (y - 1) / 100 + (y - 1) / 400

/-- `_DAYS_BEFORE_MONTH` of `datetime.py`: days before the month in a
non-leap year. -/
def daysBeforeMonthTab : Nat → Nat
  | 1 => 0
  | 2 => 31
  | 3 => 59
  | 4 => 90
  | 5 => 120
  | 6 => 151
  | 7 => 181
  | 8 => 212
  | 9 => 243
  | 10 => 273
  | 11 => 304
  | _ => 334

/-- Days in a month given a leap flag, `_DAYS_IN_MONTH[m] + (m == 2 and
leap)`. -/
def dimFlag (leap : Bool) (m : Nat) : Nat :=
  if m == 2 then (if leap then 29 else 28)
  else if m == 4 || m == 6 || m == 9 || m == 11 then 30
  else 31

/-- `_ord2ymd` of `datetime.py` guarded by the `datetime` constructor's
year range: ordinal day 1 is 0001-01-01 and ordinal 3652059 is
9999-12-31; outside that range the constructed year is out of
`MINYEAR..MAXYEAR` and the constructor raises. -/
def ord2ymd (o : Int) : Option (Nat × Nat × Nat) :=
  if 1 ≤ o && o ≤ 3652059 then
    let n0 := (o - 1).toNat
    let n400 := n0 / 146097
    let r400 := n0 % 146097
    let n100 := r400 / 36524
    let r100 := r400 % 36524
    let n4 := r100 / 1461
    let r4 := r100 % 1461
    let n1 := r4 / 365
    let n := r4 % 365
    let year := n400 * 400 + 1 + n100 * 100 + n4 * 4 + n1
    if n1 == 4 || n100 == 4 then some (year - 1, 12, 31)
    else
      let leap := n1 == 3 && (n4 != 24 || n100 == 3)
      let m0 := (n + 50) / 32
      let p0 := daysBeforeMonthTab m0 + (if 2 < m0 && leap then 1 else 0)
      if n < p0 then some (year, m0 - 1, n - (p0 - dimFlag leap (m0 - 1)) + 1)
      else some (year, m0, n - p0 + 1)
  else Option.none

/-- `_isoweek_to_gregorian`: validate the year, the week (53 only in long
ISO years, those whose January 1st falls on Thursday, or Wednesday of a
leap year) and the weekday, then count days from the Monday of week 1
(the week of January 4th) and convert the ordinal back to a calendar
date. -/
def isoToYmd (y w d : Nat) : Option (Nat × Nat × Nat) :=
  if 1 ≤ y && y ≤ 9999 then
    let fd := daysBeforeYear y + 1
    let weekOk :=
      (1 ≤ w && w ≤ 52) ||
      (w == 53 && (fd % 7 == 4 || (fd % 7 == 3 && isLeap y)))
    if weekOk && 1 ≤ d && d ≤ 7 then
      let fw := (fd + 6) % 7
      let w1m : Int := (fd : Int) - (fw : Int) + (if 3 < fw then 7 else 0)
      ord2ymd (w1m + ((w : Int) - 1) * 7 + ((d : Int) - 1))
    else Option.none
  else Option.none

/-- The ISO-week day number: absent entirely when the week ends the date
slice; otherwise a dash is consumed exactly when the date uses dashes
(`"Inconsistent use of dash separator"` otherwise), then one digit. -/
def weekDay (usesSep : Bool) (rest : List Char) : Option Nat :=
  match rest with
  | [] => Option.none
  | c :: r =>
    if (c == '-') != usesSep then Option.none
    else
      match (if usesSep then r else c :: r) with
      | d :: _ => if d.isDigit then some (dval d) else Option.none
      | [] => Option.none

/-- CPython's `parse_isoformat_date` over the full character buffer with
the separator location `loc` as its length argument (only the week form
consults it, to decide whether a day number follows; the calendar form
reads exactly the characters its grammar demands, as the C code does),
plus the `date` constructor's month/day/year validation. -/
def parseIsoDate (cs : List Char) (loc : Nat) : Option (Nat × Nat × Nat) :=
  match takeDigs 4 cs with
  | Option.none => Option.none
  | some (y, r4) =>
    let usesSep := r4.head? == some '-'
    let r5 := if usesSep then r4.tail else r4
    if r5.head? == some 'W' then
      match take2 r5.tail with
      | Option.none => Option.none
      | some (w, rw) =>
        if (if usesSep then 8 else 7) < loc then
          match weekDay usesSep rw with
          | some d => isoToYmd y w d
          | Option.none => Option.none
        else isoToYmd y w 1
    else
      match take2 r5 with
      | Option.none => Option.none
      | some (mo, r7) =>
        if (r7.head? == some '-') != usesSep then Option.none
        else
          match take2 (if usesSep then r7.tail else r7) with
          | Option.none => Option.none
          | some (d, _) =>
            if 1 ≤ y && 1 ≤ mo && mo ≤ 12 && 1 ≤ d && d ≤ daysInMonth y mo then
              some (y, mo, d)
            else Option.none

/-- `datetime.fromisoformat` as run by this program on CPython ≥ 3.11 (the
code imports `datetime.UTC`), reduced to the calendar date of the result
(the formatting below only uses the date): strings shorter than 7
characters are rejected, the separator position is located, the date part
parsed — `YYYY-MM-DD`, `YYYYMMDD`, and the ISO-week forms `YYYY-Www[-D]`
and `YYYYWww[D]` — and, when characters remain, one arbitrary separator
character is skipped and the rest must be a valid time of day with
optional fraction and timezone. `none` models `ValueError` (which the
caller catches). -/
def fromIsoDate (s : String) : Option (Nat × Nat × Nat) :=
  let cs := s.data
  if cs.length < 7 then Option.none
  else
    match findSep cs with
    | Option.none => Option.none
    | some loc =>
      match parseIsoDate cs loc with
      | Option.none => Option.none
      | some ymd =>
        if loc < cs.length then
          if timeValid (cs.drop (loc + 1)) then some ymd else Option.none
        else some ymd

/-- The `data` transformation of the info block:
`datetime.fromisoformat(valor).strftime("%d/%m/%Y")` inside
`try/except: pass` — a parseable date string is reformatted day/month/year,
anything else (including non-strings, where `fromisoformat` raises
`TypeError`) passes through unchanged. -/
def formatDataValor (valor : PyVal) : PyVal :=
  match valor with
  | .str s =>
    match fromIsoDate s with
    | some (y, m, d) => .str (pad2 d ++ "/" ++ pad2 m ++ "/" ++ toString y)
    | Option.none => .str s
  | v => v

/-! ## Layout blocks (ReportLab flowables) -/

/-- A layout block appended to `elements`: a `Paragraph` with a named
style, a `Spacer`, or a `Table` with its column widths and cell rows.
Styling directives (colors, fonts) carry no data and are not modelled. -/
inductive Element where
  | paragraph (style : String) (text : String)
  | spacer (w h : Nat)
  | table (colWidths : List Nat) (rows : List (List PyVal))
deriving Repr

/-- The constant title text of every report. -/
def titleText : String := "<b>Controle Diário da Britagem / Moagem</b>"

/-- `elements` after the title (`Paragraph(..., styles["Title"])` and
`Spacer(1, 12)`). -/
def titleElements : List Element :=
  [.paragraph "Title" titleText, .spacer 1 12]

/-! ## Info block -/

/-- The fixed key/label pairs of the info block (`campos_info`). -/
def camposInfo : List (String × String) :=
  [("operador", "Operador(es)"), ("visto", "Visto"), ("hp", "HP"),
   ("turno", "Turno"), ("data", "Data"), ("horasExtras", "Horas Extras")]

/-- The `info_rows` loop: for each recognized key with a truthy value,
append a `[rotulo, str(valor)]` row, the `data` value reformatted first. -/
def infoRows (dados : PyDict) : List (List PyVal) :=
  camposInfo.foldl
    (fun acc c =>
      let valor := pyGet dados c.1
      if truthy valor then
        acc ++ [[PyVal.str c.2,
                 PyVal.str (pystr (if c.1 == "data" then formatDataValor valor else valor))]]
      else acc)
    []

/-- The info block: table plus spacer when any row exists, nothing
otherwise. -/
def infoElements (dados : PyDict) : List Element :=
  if (infoRows dados).isEmpty then []
  else [.table [130, 350] (infoRows dados), .spacer 1 12]

/-! ## Iterating a field expected to hold a list of dicts -/

/-- `for x in v: x.get(...)` on a Python value: succeeds only when `v` is a
list of dicts. Iterating a string or a dict yields strings, whose `.get`
raises `AttributeError`; a non-iterable raises `TypeError`; a list element
without `.get` raises `AttributeError`. (The empty string/dict cases never
reach this function: the callers guard on truthiness.) -/
def listDicts : List PyVal → Except String (List PyDict)
  | [] => .ok []
  | x :: rest =>
    match x with
    | .dict d =>
      match listDicts rest with
      | .ok ds => .ok (d :: ds)
      | .error e => .error e
    | _ => .error "AttributeError: element has no attribute get"

/-- Dispatch of `for x in v` on the container type; see `listDicts` for
the per-element decoding of a list. -/
def iterAsDicts : PyVal → Except String (List PyDict)
  | .list xs => listDicts xs
  | .str _ => Except.error "AttributeError: str has no attribute get"
  | .dict _ => Except.error "AttributeError: str key has no attribute get"
  | _ => Except.error "TypeError: object is not iterable"

/-! ## Silo inventory table -/

/-- Header row of the silos table. -/
def silosHeader : List PyVal :=
  [.str "Silo", .str "Estoque (t)", .str "Horas Trabalhadas"]

/-- One silos row: `[silo.get('nome',''), silo.get('estoque',''),
silo.get('horasTrabalhadas','')]`. -/
def siloRow (d : PyDict) : List PyVal :=
  [pyGetD d "nome" (.str ""), pyGetD d "estoque" (.str ""),
   pyGetD d "horasTrabalhadas" (.str "")]

/-- The silos section: heading, table and spacer when `silos` is truthy
(the `or []` default makes a falsy value the empty list, skipped). -/
def silosSection (dados : PyDict) : Except String (List Element) :=
  if truthy (pyGet dados "silos") then do
    let ds ← iterAsDicts (pyGet dados "silos")
    pure [.paragraph "Heading4" "Estoque de Produto",
          .table [230, 100, 100] (silosHeader :: ds.map siloRow),
          .spacer 1 12]
  else pure []

/-! ## Stoppage log table -/

/-- Header row of the stoppage log. -/
def paradasHeader : List PyVal :=
  [.str "Início", .str "Fim", .str "Motivo", .str "Duração", .str "Observação"]

/-- One stoppage row from `p.get` on the five fields. -/
def paradaRow (p : PyDict) : List PyVal :=
  [pyGetD p "inicio" (.str ""), pyGetD p "fim" (.str ""),
   pyGetD p "motivo" (.str ""), pyGetD p "duracao" (.str ""),
   pyGetD p "observacao" (.str "")]

/-- Column widths of the stoppage log table. -/
def paradasWidths : List Nat := [70, 70, 150, 60, 110]

/-- The stoppage-log section, over the raw `paradas` value. -/
def paradasSection (paradasVal : PyVal) : Except String (List Element) :=
  if truthy paradasVal then do
    let ps ← iterAsDicts paradasVal
    pure [.paragraph "Heading4" "Paradas Operacionais",
          .table paradasWidths (paradasHeader :: ps.map paradaRow),
          .spacer 1 12]
  else pure []

/-! ## Stoppage breakdown (Distribuição de Paradas) -/

/-- Duration parsing of the breakdown section: `h, m = [int(x) for x in
dur.split(':')]; minutes = h*60+m` inside `try/except: minutes = 0` — any
failure (non-string, not exactly two parts, non-integer part) counts as
zero minutes. -/
def parseDurDistrib (dur : PyVal) : Int :=
  match dur with
  | .str s =>
    match splitChar ':' s with
    | [a, b] =>
      match pyInt a, pyInt b with
      | some h, some m => h * 60 + m
      | _, _ => 0
    | _ => 0
  | _ => 0

/-- The group key: `p.get('motivo', 'Sem motivo') or 'Sem motivo'` — a
missing or falsy reason becomes the placeholder. -/
def motivoKey (p : PyDict) : PyVal :=
  if truthy (pyGetD p "motivo" (.str "Sem motivo")) then
    pyGetD p "motivo" (.str "Sem motivo")
  else .str "Sem motivo"

/-- Whether a value is unhashable in Python (would raise `TypeError` when
used as a dict key). -/
def unhashable : PyVal → Bool
  | .list _ => true
  | .dict _ => true
  | _ => false

/-- `motivos[mot] = motivos.get(mot, 0) + minutes` with Python dict
semantics: the first pyEq-matching entry keeps its original key and
position; a new key is appended. -/
def pyDictUpd (m : List (PyVal × Int)) (k : PyVal) (add : Int) : List (PyVal × Int) :=
  match m with
  | [] => [(k, add)]
  | (k0, v0) :: rest =>
    if pyEq k0 k then (k0, v0 + add) :: rest
    else (k0, v0) :: pyDictUpd rest k add

/-- The aggregation loop of the breakdown section: accumulates
`total_minutes` and the insertion-ordered `motivos` dict; an unhashable
reason raises `TypeError` at the dict access. -/
def distribAggAux (ps : List PyDict) (total : Int) (m : List (PyVal × Int)) :
    Except String (Int × List (PyVal × Int)) :=
  match ps with
  | [] => .ok (total, m)
  | p :: rest =>
    if unhashable (motivoKey p) then .error "TypeError: unhashable type"
    else
      distribAggAux rest
        (total + parseDurDistrib (pyGetD p "duracao" (.str "00:00")))
        (pyDictUpd m (motivoKey p) (parseDurDistrib (pyGetD p "duracao" (.str "00:00"))))

/-- One breakdown row: reason, group total reformatted `"HH:MM"` (floor
division and mod, as Python `//` and `%`), percentage to two decimals. -/
def distribRow (total : Int) (kv : PyVal × Int) : List PyVal :=
  [kv.1,
   .str (fmt02 (kv.2.fdiv 60) ++ ":" ++ fmt02 (kv.2.fmod 60)),
   .str (formatFixed2 (((kv.2 : ℚ) / (total : ℚ)) * 100) ++ "%")]

/-- Column widths of the breakdown table. -/
def distribWidths : List Nat := [200, 70, 70]

/-- The breakdown section: aggregation always runs when the stoppage list
is non-empty (by this point the raw value, if truthy, is a non-empty list
of dicts); heading and table are emitted only when `total_minutes > 0`. -/
def distribSection (paradas : List PyDict) : Except String (List Element) :=
  if paradas.isEmpty then pure []
  else do
    let (total, motivos) ← distribAggAux paradas 0 []
    if total > 0 then
      pure [.paragraph "Heading4" "Distribuição de Paradas",
            .table distribWidths
              (([PyVal.str "Motivo", PyVal.str "Tempo", PyVal.str "%"]) ::
                motivos.map (distribRow total)),
            .spacer 1 12]
    else pure []

/-! ## Operational summary (Resumo Operacional) -/

/-- `tempo_efetivo = dados.get('tempoEfetivo') or '00:00'`. -/
def tempoEfetivoVal (dados : PyDict) : PyVal :=
  if truthy (pyGet dados "tempoEfetivo") then pyGet dados "tempoEfetivo"
  else .str "00:00"

/-- `producao_total = dados.get('toneladas') or dados.get('producaoTotal')
or ''`. -/
def producaoTotalVal (dados : PyDict) : PyVal :=
  if truthy (pyGet dados "toneladas") then pyGet dados "toneladas"
  else if truthy (pyGet dados "producaoTotal") then pyGet dados "producaoTotal"
  else .str ""

/-- `resumo = dados.get('resumoParadas') or {}`. -/
def resumoVal (dados : PyDict) : PyVal :=
  if truthy (pyGet dados "resumoParadas") then pyGet dados "resumoParadas"
  else .dict []

/-- `resumo.get('totalParadas') if isinstance(resumo, dict) else None`. -/
def totalParadas0 (dados : PyDict) : PyVal :=
  match resumoVal dados with
  | .dict r => pyGet r "totalParadas"
  | _ => .none

/-- `resumo.get('tempoTotalParadas') if isinstance(resumo, dict) else
None`. -/
def tempoTotalParadas0 (dados : PyDict) : PyVal :=
  match resumoVal dados with
  | .dict r => pyGet r "tempoTotalParadas"
  | _ => .none

/-- The per-entry term of the summary's fallback total:
`(int(p.get('duracao','00:00').split(':')[0]) * 60 +
int(p.get('duracao','00:00').split(':')[1])) if p.get('duracao') else 0`.
Unlike the breakdown section this expression has NO try/except: a truthy
duration that is not a string raises `AttributeError`, a first part that
is not an integer raises `ValueError`, a missing second part raises
`IndexError`, a non-integer second part raises `ValueError`. -/
def parseDurSummary (p : PyDict) : Except String Int :=
  if truthy (pyGetD p "duracao" .none) then
    match pyGetD p "duracao" (.str "00:00") with
    | .str s =>
      let parts := splitChar ':' s
      match pyInt (parts.headD "") with
      | Option.none => .error "ValueError: invalid literal for int"
      | some h =>
        match parts.get? 1 with
        | Option.none => .error "IndexError: list index out of range"
        | some p1 =>
          match pyInt p1 with
          | Option.none => .error "ValueError: invalid literal for int"
          | some m => .ok (h * 60 + m)
    | _ => .error "AttributeError: no attribute split"
  else .ok 0

/-- The summary's fallback `total_minutes = sum([...])`, left to right. -/
def summaryTotalMinutes (ps : List PyDict) : Except String Int := do
  let xs ← ps.mapM parseDurSummary
  pure xs.sum

/-- `total_paradas`: the client-supplied value unless it `is None`, else
`len(paradas)`. -/
def totalParadasVal (dados : PyDict) (paradas : List PyDict) : PyVal :=
  if isNone (totalParadas0 dados) then .int paradas.length else totalParadas0 dados

/-- `tempo_total_paradas`: the client-supplied value unless it `is None`,
else the fallback sum reformatted `"HH:MM"` — the computation that can
raise. -/
def tempoTotalParadasVal (dados : PyDict) (paradas : List PyDict) :
    Except String PyVal :=
  if isNone (tempoTotalParadas0 dados) then do
    let tm ← summaryTotalMinutes paradas
    pure (PyVal.str (fmt02 (tm.fdiv 60) ++ ":" ++ fmt02 (tm.fmod 60)))
  else pure (tempoTotalParadas0 dados)

/-- The derived throughput, the whole `try` block: `pt` from
`float(producao_total)` when it is a bool/int/float/str — `float` of a
non-numeric string raises `ValueError` and `float` of an int of magnitude
at least `ovflBound` raises `OverflowError`, both caught as `'0.00'`,
while an overflowing numeric string yields a signed infinity without an
exception; a non-scalar gives `pt = 0`. The effective time is split
`"H:M"` into two ints (any failure caught as `'0.00'`); then, for
positive total hours, `f"{pt / total_h:.2f}"`, which prints `inf`,
`-inf` or `nan` for a non-finite `pt` and a signed infinity when the
quotient itself overflows the double range; otherwise `'0.00'`. -/
def computeThroughput (producaoTotal tempoEfetivo : PyVal) : String :=
  let ptOpt : Option PyF :=
    match producaoTotal with
    | .bool b => some (.fin (if b then 1 else 0))
    | .int n => if ovflBound ≤ n.natAbs then Option.none else some (.fin (n : ℚ))
    | .float q => some (.fin q)
    | .str s => pyFloat s
    | _ => some (.fin 0)
  match ptOpt with
  | Option.none => "0.00"
  | some pt =>
    match tempoEfetivo with
    | .str s =>
      match splitChar ':' s with
      | [a, b] =>
        match pyInt a, pyInt b with
        | some h, some m =>
          let totalH : ℚ := (h : ℚ) + (m : ℚ) / 60
          if totalH > 0 then
            match pt with
            | .fin q =>
              if (ovflBound : ℚ) ≤ |q / totalH| then
                (if q / totalH < 0 then "-inf" else "inf")
              else formatFixed2 (q / totalH)
            | .pinf => "inf"
            | .ninf => "-inf"
            | .nan => "nan"
          else "0.00"
        | _, _ => "0.00"
      | _ => "0.00"
    | _ => "0.00"

/-- `producao_por_hora`: the supplied field, replaced by the derived
string when the supplied value is falsy and `producao_total` and
`tempo_efetivo` are truthy. -/
def pphVal (dados : PyDict) : PyVal :=
  if !truthy (pyGet dados "producaoPorHora") && truthy (producaoTotalVal dados) &&
      truthy (tempoEfetivoVal dados) then
    .str (computeThroughput (producaoTotalVal dados) (tempoEfetivoVal dados))
  else pyGet dados "producaoPorHora"

/-- Header row of the summary table. -/
def resumoHeader : List PyVal :=
  [.str "Tempo Efetivo", .str "Produção Total (t)",
   .str "Total de Paradas (Tempo)", .str "Produção/Hora"]

/-- Column widths of the summary table. -/
def resumoWidths : List Nat := [120, 140, 160, 100]

/-- The single data row of the summary table. -/
def resumoRow (dados : PyDict) (paradas : List PyDict) :
    Except String (List PyVal) := do
  let ttp ← tempoTotalParadasVal dados paradas
  pure [tempoEfetivoVal dados,
        (if pyEq (producaoTotalVal dados) (.str "") then .str "-"
         else .str (pystr (producaoTotalVal dados))),
        .str (pystr (totalParadasVal dados paradas) ++ " (" ++ pystr ttp ++ ")"),
        (if truthy (pphVal dados) then pphVal dados else .str "-")]

/-- The summary section, always appended (heading, table, spacer) unless
the fallback total computation raises. -/
def summarySection (dados : PyDict) (paradas : List PyDict) :
    Except String (List Element) := do
  let row ← resumoRow dados paradas
  pure [.paragraph "Heading4" "Resumo Operacional",
        .table resumoWidths [resumoHeader, row],
        .spacer 1 12]

/-! ## Observations and checklist -/

/-- `obs_text = dados.get('observacoes') or dados.get('observacoes/atuações')`,
then heading plus plain paragraph when truthy. -/
def obsText (dados : PyDict) : PyVal :=
  if truthy (pyGet dados "observacoes") then pyGet dados "observacoes"
  else pyGet dados "observacoes/atuações"

/-- Heading plus plain paragraph when the observations text is truthy. -/
def obsSection (dados : PyDict) : List Element :=
  if truthy (obsText dados) then
    [.paragraph "Heading4" "Observações / Atuações no Processo",
     .paragraph "Normal" (pystr (obsText dados)), .spacer 1 12]
  else []

/-- One checklist row from `item.get` on the three fields. -/
def checklistRow (d : PyDict) : List PyVal :=
  [pyGetD d "equipamento" (.str ""), pyGetD d "situacao" (.str ""),
   pyGetD d "observacao" (.str "")]

/-- The checklist section. -/
def checklistSection (dados : PyDict) : Except String (List Element) :=
  if truthy (pyGet dados "checklist") then do
    let ds ← iterAsDicts (pyGet dados "checklist")
    pure [.paragraph "Heading4" "Checklist de Equipamentos",
          .table [200, 100, 200]
            (([PyVal.str "Equipamento", PyVal.str "Situação", PyVal.str "Observação"]) ::
              ds.map checklistRow),
          .spacer 1 12]
  else pure []

/-! ## `_build_pdf_elements` -/

/-- The stoppage list as the later sections see it: the truthy `paradas`
value decoded as a list of dicts (any failure already raised in the
stoppage-log section), the empty list when falsy. -/
def paradasDicts (dados : PyDict) : Except String (List PyDict) :=
  if truthy (pyGet dados "paradas") then iterAsDicts (pyGet dados "paradas")
  else pure []

/-- `_build_pdf_elements(dados)`: the full ordered block sequence, or the
first uncaught exception. -/
def buildPdfElements (dados : PyDict) : Except String (List Element) := do
  let silosEls ← silosSection dados
  let paradasEls ← paradasSection (pyGet dados "paradas")
  let paradas ← paradasDicts dados
  let distribEls ← distribSection paradas
  let resumoEls ← summarySection dados paradas
  let checkEls ← checklistSection dados
  pure (titleElements ++ infoElements dados ++ silosEls ++ paradasEls ++
        distribEls ++ resumoEls ++ obsSection dados ++ checkEls)

/-- Whether `_build_pdf_elements` returns normally. -/
def buildOk (dados : PyDict) : Bool :=
  match buildPdfElements dados with
  | .ok _ => true
  | .error _ => false

/-- The returned block sequence (the empty list when an exception was
raised; only used beneath a `buildOk` hypothesis). -/
def buildRun (dados : PyDict) : List Element :=
  match buildPdfElements dados with
  | .ok els => els
  | .error _ => []

/-! ## HTTP endpoints -/

/-- A saved production record: `{"id": ..., "timestamp": ..., "dados": ...}`. -/
structure Registro where
  rid : Nat
  timestamp : String
  dados : PyVal
deriving Repr

/-- `salvar_registro`: `None` (absent/unparseable body) or any falsy JSON
body is rejected with 400 (modelled as `none` and an unchanged store);
otherwise the record gets id `len(store) + 1` and is appended. -/
def salvar_registro (body : Option PyVal) (now : String) (regs : List Registro) :
    Option Nat × List Registro :=
  match body with
  | Option.none => (Option.none, regs)
  | some dados =>
    if truthy dados then
      let rid := regs.length + 1
      (some rid, regs ++ [⟨rid, now, dados⟩])
    else (Option.none, regs)

/-- `obter_registro`: `next((r for r in registros_producao if r["id"] ==
registro_id), None)` — 404 is modelled as `none`. -/
def obter_registro (regs : List Registro) (rid : Nat) : Option Registro :=
  regs.find? (fun r => r.rid == rid)

/-- The response of the PDF endpoint before rendering: 400, or the built
block sequence handed to the renderer. -/
inductive PdfResponse where
  | badRequest
  | pdf (els : List Element)
deriving Repr

/-- `gerar_pdf`: absent/unparseable body or any falsy JSON body returns
400 before `_build_pdf_elements` is ever called; a truthy non-dict body
raises at the first `dados.get` (`AttributeError`); otherwise the
assembler runs (its exceptions propagate — only `doc.build` is inside the
handler's try). -/
def gerar_pdf (body : Option PyVal) : Except String PdfResponse :=
  match body with
  | Option.none => .ok .badRequest
  | some dados =>
    if truthy dados then
      match dados with
      | .dict fields => (buildPdfElements fields).map PdfResponse.pdf
      | _ => .error "AttributeError: no attribute get"
    else .ok .badRequest

/-! ## Derived definitions used by the specification statements -/

/-- Saving a sequence of bodies (with their request timestamps) through
`salvar_registro`, keeping the store. -/
def salvarFold (items : List (PyVal × String)) (regs : List Registro) : List Registro :=
  items.foldl (fun rs x => (salvar_registro (some x.1) x.2 rs).2) regs

/-- The records produced by saving `items` onto a store that already holds
`off` records. -/
def mkRegs (off : Nat) : List (PyVal × String) → List Registro
  | [] => []
  | x :: xs => ⟨off + 1, x.2, x.1⟩ :: mkRegs (off + 1) xs

/-- The parsed duration of one stoppage entry, as the breakdown section
reads it. -/
def durOf (p : PyDict) : Int :=
  parseDurDistrib (pyGetD p "duracao" (.str "00:00"))

/-- The sum of parsed durations over a stoppage list. -/
def sumDur (ps : List PyDict) : Int :=
  (ps.map durOf).sum

/-- The `motivos` dict after processing a stoppage list, as a fold of the
per-entry update. -/
def foldUpd (m : List (PyVal × Int)) (ps : List PyDict) : List (PyVal × Int) :=
  ps.foldl (fun acc p => pyDictUpd acc (motivoKey p) (durOf p)) m

theorem except_bind_ok {α β ε : Type} (a : α) (f : α → Except ε β) :
    (Except.ok a >>= f) = f a := rfl

theorem except_bind_error {α β ε : Type} (e : ε) (f : α → Except ε β) :
    ((Except.error e : Except ε α) >>= f) = .error e := rfl

theorem except_pure {α ε : Type} (a : α) : (pure a : Except ε α) = .ok a := rfl

/-- Structure of a successful `_build_pdf_elements` run: every section
succeeded and the result is their concatenation in the fixed order. -/
theorem buildPdfElements_ok_eq {dados : PyDict} {els : List Element}
    (h : buildPdfElements dados = .ok els) :
    ∃ silosEls paradasEls paradas distribEls resumoEls checkEls,
      silosSection dados = .ok silosEls ∧
      paradasSection (pyGet dados "paradas") = .ok paradasEls ∧
      paradasDicts dados = .ok paradas ∧
      distribSection paradas = .ok distribEls ∧
      summarySection dados paradas = .ok resumoEls ∧
      checklistSection dados = .ok checkEls ∧
      els = titleElements ++ infoElements dados ++ silosEls ++ paradasEls ++
        distribEls ++ resumoEls ++ obsSection dados ++ checkEls := by
  unfold buildPdfElements at h
  cases h1 : silosSection dados with
  | error e => rw [h1, except_bind_error] at h; exact absurd h (by simp)
  | ok silosEls =>
  rw [h1, except_bind_ok] at h
  cases h2 : paradasSection (pyGet dados "paradas") with
  | error e => rw [h2, except_bind_error] at h; exact absurd h (by simp)
  | ok paradasEls =>
  rw [h2, except_bind_ok] at h
  cases h3 : paradasDicts dados with
  | error e => rw [h3, except_bind_error] at h; exact absurd h (by simp)
  | ok paradas =>
  rw [h3, except_bind_ok] at h
  cases h4 : distribSection paradas with
  | error e => rw [h4, except_bind_error] at h; exact absurd h (by simp)
  | ok distribEls =>
  rw [h4, except_bind_ok] at h
  cases h5 : summarySection dados paradas with
  | error e => rw [h5, except_bind_error] at h; exact absurd h (by simp)
  | ok resumoEls =>
  rw [h5, except_bind_ok] at h
  cases h6 : checklistSection dados with
  | error e => rw [h6, except_bind_error] at h; exact absurd h (by simp)
  | ok checkEls =>
  rw [h6, except_bind_ok, except_pure] at h
  exact ⟨silosEls, paradasEls, paradas, distribEls, resumoEls, checkEls,
    rfl, rfl, rfl, h4, h5, rfl, (Except.ok.injEq _ _).mp h.symm⟩

/-- `buildOk` exposes a successful run. -/
theorem buildOk_iff {dados : PyDict} :
    buildOk dados = true ↔ ∃ els, buildPdfElements dados = .ok els := by
  unfold buildOk
  cases h : buildPdfElements dados <;> simp

/-- `buildRun` returns the block list of a successful run. -/
theorem buildRun_eq {dados : PyDict} {els : List Element}
    (h : buildPdfElements dados = .ok els) : buildRun dados = els := by
  unfold buildRun; rw [h]

/-- A successful aggregation accumulates the duration sum and the folded
dict updates. -/
theorem distribAggAux_ok {ps : List PyDict} {t : Int} {m : List (PyVal × Int)}
    {t2 : Int} {m2 : List (PyVal × Int)}
    (h : distribAggAux ps t m = .ok (t2, m2)) :
    t2 = t + sumDur ps ∧ m2 = foldUpd m ps := by
  induction ps generalizing t m with
  | nil =>
    unfold distribAggAux at h
    have h0 := (Except.ok.injEq _ _).mp h
    obtain ⟨h1, h2⟩ := Prod.mk.injEq .. |>.mp h0
    simp [sumDur, foldUpd, ← h1, ← h2]
  | cons p rest ih =>
    unfold distribAggAux at h
    split at h
    case isTrue hu => exact absurd h (by simp)
    case isFalse hu =>
      obtain ⟨h1, h2⟩ := ih h
      constructor
      · rw [h1]; simp [sumDur, durOf]; ring
      · rw [h2]; simp [foldUpd, durOf]

/-- The summary section always yields heading, table and spacer from its
single row. -/
theorem summarySection_ok {dados : PyDict} {ps : List PyDict} {els : List Element}
    (h : summarySection dados ps = .ok els) :
    ∃ row, resumoRow dados ps = .ok row ∧
      els = [.paragraph "Heading4" "Resumo Operacional",
             .table resumoWidths [resumoHeader, row], .spacer 1 12] := by
  unfold summarySection at h
  cases hr : resumoRow dados ps with
  | error e => rw [hr, except_bind_error] at h; exact absurd h (by simp)
  | ok row =>
    rw [hr, except_bind_ok, except_pure] at h
    exact ⟨row, rfl, ((Except.ok.injEq _ _).mp h).symm⟩

/-- The rounding error of ties-to-even rounding is at most a half. -/
theorem roundHalfEven_err (q : ℚ) : |(roundHalfEven q : ℚ) - q| ≤ 1 / 2 := by
  unfold roundHalfEven
  have h0 : (0 : ℚ) ≤ q - (⌊q⌋ : ℚ) := by
    have := Int.floor_le q
    linarith
  have h1 : q - (⌊q⌋ : ℚ) < 1 := by
    have := Int.lt_floor_add_one q
    linarith
  split_ifs with hlt hgt hev
  · rw [abs_sub_comm, abs_of_nonneg h0]; linarith
  · have he : ((⌊q⌋ + 1 : Int) : ℚ) - q = 1 - (q - (⌊q⌋ : ℚ)) := by push_cast; ring
    rw [he, abs_of_nonneg (by linarith)]; linarith
  · have he : q - (⌊q⌋ : ℚ) = 1 / 2 := le_antisymm (not_lt.mp hgt) (not_lt.mp hlt)
    rw [abs_sub_comm, abs_of_nonneg h0]; linarith
  · have he : q - (⌊q⌋ : ℚ) = 1 / 2 := le_antisymm (not_lt.mp hgt) (not_lt.mp hlt)
    have he2 : ((⌊q⌋ + 1 : Int) : ℚ) - q = 1 - (q - (⌊q⌋ : ℚ)) := by push_cast; ring
    rw [he2, abs_of_nonneg (by linarith)]; linarith

/-- C1 counterexample: the claim says `_build_pdf_elements` never raises
on any JSON object input, but on `{"silos": 1}` the loop `for silo in
silos` raises `TypeError` (an int is not iterable), so the assembler does
raise. -/
theorem claim1_counterexample :
    buildOk [("silos", PyVal.int 1)] = false := rfl

/-- C1 (amended): `_build_pdf_elements` can raise on some JSON object
inputs, but whenever it returns normally the element sequence begins with
the constant Title block. -/
theorem claim1_theorem (dados : PyDict) (h : buildOk dados = true) :
    (buildRun dados).head? = some (Element.paragraph "Title" titleText) := by
  obtain ⟨els, hels⟩ := buildOk_iff.mp h
  obtain ⟨_, _, _, _, _, _, _, _, _, _, _, _, heq⟩ := buildPdfElements_ok_eq hels
  rw [buildRun_eq hels, heq]
  rfl

/-- C1 witness: the empty object builds successfully and its output starts
with the Title block. -/
theorem claim1_witness :
    (buildRun []).head? = some (Element.paragraph "Title" titleText) :=
  claim1_theorem [] rfl

/-! ## Claim C2 -/

/-- C2 (code bug evidence): in the breakdown aggregation the malformed
duration `"bad"` contributes zero minutes and the well-formed entry is
still summed (first two conjuncts, matching the claim), but the summary
section's own total — computed without any try/except at main.py lines
306-309 — raises `ValueError` on the same input, so `_build_pdf_elements`
aborts: the third conjunct shows the whole report failing on a stoppage
list containing duration `"bad"`. -/
theorem claim2_code_bug :
    parseDurDistrib (PyVal.str "bad") = 0 ∧
    distribAggAux [[("motivo", PyVal.str "A"), ("duracao", PyVal.str "01:00")],
                   [("motivo", PyVal.str "B"), ("duracao", PyVal.str "bad")]] 0 [] =
      .ok (60, [(PyVal.str "A", 60), (PyVal.str "B", 0)]) ∧
    buildOk [("paradas", PyVal.list
      [PyVal.dict [("motivo", PyVal.str "A"), ("duracao", PyVal.str "01:00")],
       PyVal.dict [("motivo", PyVal.str "B"), ("duracao", PyVal.str "bad")]])] = false :=
  ⟨by rfl, by rfl, by rfl⟩

/-! ## Claim C3 -/

/-- Updating any key adds the update to the total of the stored values. -/
theorem pyDictUpd_snd_sum (m : List (PyVal × Int)) (k : PyVal) (d : Int) :
    ((pyDictUpd m k d).map (fun kv => kv.2)).sum = (m.map (fun kv => kv.2)).sum + d := by
  induction m with
  | nil => simp [pyDictUpd]
  | cons kv rest ih =>
    unfold pyDictUpd
    cases he : pyEq kv.1 k with
    | true => simp; omega
    | false => simp [ih]; omega

/-- The folded dict's values total the parsed durations. -/
theorem foldUpd_snd_sum (ps : List PyDict) (m : List (PyVal × Int)) :
    ((foldUpd m ps).map (fun kv => kv.2)).sum =
      (m.map (fun kv => kv.2)).sum + sumDur ps := by
  induction ps generalizing m with
  | nil => simp [foldUpd, sumDur]
  | cons p rest ih =>
    have hstep : foldUpd m (p :: rest) =
        foldUpd (pyDictUpd m (motivoKey p) (durOf p)) rest := by
      simp [foldUpd]
    rw [hstep, ih, pyDictUpd_snd_sum]
    simp [sumDur]
    omega

/-- Sum of a map that multiplies by a constant on the right. -/
theorem sum_map_mul_right2 {α : Type} (l : List α) (f : α → ℚ) (c : ℚ) :
    (l.map (fun a => f a * c)).sum = (l.map f).sum * c := by
  induction l with
  | nil => simp
  | cons a as ih => simp [ih, add_mul]

/-- Sum of the integer values, seen in `ℚ`. -/
theorem sum_map_intCast (m : List (PyVal × Int)) :
    (m.map (fun kv => ((kv.2 : Int) : ℚ))).sum =
      (((m.map (fun kv => kv.2)).sum : Int) : ℚ) := by
  induction m with
  | nil => simp
  | cons kv rest ih => simp [ih]

/-- Triangle inequality for sums of pointwise-bounded differences. -/
theorem sum_abs_le {α : Type} (l : List α) (f g : α → ℚ) (c : ℚ)
    (h : ∀ a ∈ l, |f a - g a| ≤ c) :
    |(l.map f).sum - (l.map g).sum| ≤ l.length * c := by
  induction l with
  | nil => simp
  | cons a as ih =>
    have h1 := h a (by simp)
    have h2 := ih (fun x hx => h x (by simp [hx]))
    simp only [List.map_cons, List.sum_cons, List.length_cons]
    have key : f a + (as.map f).sum - (g a + (as.map g).sum) =
        (f a - g a) + ((as.map f).sum - (as.map g).sum) := by ring
    calc |f a + (as.map f).sum - (g a + (as.map g).sum)|
        = |(f a - g a) + ((as.map f).sum - (as.map g).sum)| := by rw [key]
      _ ≤ |f a - g a| + |(as.map f).sum - (as.map g).sum| := abs_add _ _
      _ ≤ c + as.length * c := add_le_add h1 h2
      _ = ((as.length : ℚ) + 1) * c := by ring
      _ = (((as.length + 1 : Nat)) : ℚ) * c := by push_cast; ring

/-! ## Claim C4 -/

/-- C5: whenever the aggregation succeeds with positive total minutes,
the exact percentages of the breakdown rows sum to exactly 100 (first
conjunct), and the values actually printed — each percentage rounded to
two decimals, which is what `formatFixed2` prints — sum to 100 up to the
formatting rounding error, at most `1/200` per row (second conjunct). -/
theorem claim5_theorem (ps : List PyDict) (total : Int) (m : List (PyVal × Int))
    (h : distribAggAux ps 0 [] = .ok (total, m)) (hpos : 0 < total) :
    ((m.map (fun kv => ((kv.2 : ℚ) / (total : ℚ)) * 100)).sum = 100) ∧
    |(m.map (fun kv =>
        ((roundHalfEven ((((kv.2 : ℚ) / (total : ℚ)) * 100) * 100) : ℚ) / 100))).sum
      - 100| ≤ (m.length : ℚ) * (1 / 200) := by
  obtain ⟨ht, hm⟩ := distribAggAux_ok h
  have hvs : (m.map (fun kv => kv.2)).sum = total := by
    rw [hm, foldUpd_snd_sum]
    simp [sumDur] at ht ⊢
    omega
  have htne : (total : ℚ) ≠ 0 := Int.cast_ne_zero.mpr (by omega)
  have hfun : (fun kv : PyVal × Int => ((kv.2 : ℚ) / (total : ℚ)) * 100) =
      fun kv => (kv.2 : ℚ) * (100 / (total : ℚ)) := by
    funext kv
    ring
  have hsum1 : (m.map (fun kv => ((kv.2 : ℚ) / (total : ℚ)) * 100)).sum = 100 := by
    rw [hfun, sum_map_mul_right2, sum_map_intCast, hvs]
    field_simp
  refine ⟨hsum1, ?_⟩
  have hb : ∀ kv ∈ m,
      |((roundHalfEven ((((kv.2 : ℚ) / (total : ℚ)) * 100) * 100) : ℚ) / 100) -
        ((kv.2 : ℚ) / (total : ℚ)) * 100| ≤ 1 / 200 := by
    intro kv _
    have herr := roundHalfEven_err ((((kv.2 : ℚ) / (total : ℚ)) * 100) * 100)
    have heq : ((roundHalfEven ((((kv.2 : ℚ) / (total : ℚ)) * 100) * 100) : ℚ) / 100) -
        ((kv.2 : ℚ) / (total : ℚ)) * 100 =
        ((roundHalfEven ((((kv.2 : ℚ) / (total : ℚ)) * 100) * 100) : ℚ) -
          (((kv.2 : ℚ) / (total : ℚ)) * 100) * 100) / 100 := by
      ring
    rw [heq, abs_div]
    rw [show |(100 : ℚ)| = 100 from by norm_num]
    linarith
  have := sum_abs_le m
    (fun kv => ((roundHalfEven ((((kv.2 : ℚ) / (total : ℚ)) * 100) * 100) : ℚ) / 100))
    (fun kv => ((kv.2 : ℚ) / (total : ℚ)) * 100) (1 / 200) hb
  rw [hsum1] at this
  exact this

/-- C5 witness: a single one-hour stoppage gives one group at exactly
100 percent. -/
theorem claim5_witness :
    (([(PyVal.str "A", 60)].map
        (fun kv => ((kv.2 : ℚ) / ((60 : Int) : ℚ)) * 100)).sum = 100) ∧
    |(([(PyVal.str "A", 60)] : List (PyVal × Int)).map (fun kv =>
        ((roundHalfEven ((((kv.2 : ℚ) / ((60 : Int) : ℚ)) * 100) * 100) : ℚ) / 100))).sum
      - 100| ≤ (([(PyVal.str "A", 60)] : List (PyVal × Int)).length : ℚ) * (1 / 200) :=
  claim5_theorem [[("motivo", PyVal.str "A"), ("duracao", PyVal.str "01:00")]]
    60 [(PyVal.str "A", 60)] (by rfl) (by decide)

/-! ## Claim C6 -/

/-- Characterization of a successful summary row. -/
theorem resumoRow_ok {dados : PyDict} {ps : List PyDict} {row : List PyVal}
    (h : resumoRow dados ps = .ok row) :
    ∃ ttp, tempoTotalParadasVal dados ps = .ok ttp ∧
      row = [tempoEfetivoVal dados,
             (if pyEq (producaoTotalVal dados) (.str "") then .str "-"
              else .str (pystr (producaoTotalVal dados))),
             .str (pystr (totalParadasVal dados ps) ++ " (" ++ pystr ttp ++ ")"),
             (if truthy (pphVal dados) then pphVal dados else .str "-")] := by
  unfold resumoRow at h
  cases ht : tempoTotalParadasVal dados ps with
  | error e => rw [ht, except_bind_error] at h; exact absurd h (by simp)
  | ok ttp =>
    rw [ht, except_bind_ok, except_pure] at h
    exact ⟨ttp, rfl, ((Except.ok.injEq _ _).mp h).symm⟩

/-- C10: when `resumoParadas` is a mapping, a supplied (non-`None`)
`totalParadas` or `tempoTotalParadas` is used verbatim in place of the
count and total-duration computed from `paradas` (first conjunct); a
non-mapping `resumoParadas` value is ignored and both fall back to the
computation (second conjunct); and on a successful build the summary
row's stoppage cell is exactly `"count (total)"` built from these values
(third conjunct). -/
theorem claim10_theorem (dados : PyDict) (ps : List PyDict) :
    (∀ r : PyDict, pyGet dados "resumoParadas" = .dict r →
      (isNone (pyGet r "totalParadas") = false →
        totalParadasVal dados ps = pyGet r "totalParadas") ∧
      (isNone (pyGet r "tempoTotalParadas") = false →
        tempoTotalParadasVal dados ps = .ok (pyGet r "tempoTotalParadas"))) ∧
    ((∀ r : PyDict, pyGet dados "resumoParadas" ≠ .dict r) →
      totalParadas0 dados = .none ∧ tempoTotalParadas0 dados = .none ∧
      totalParadasVal dados ps = .int ps.length) ∧
    (buildOk dados = true →
      ∃ ps2 row ttp, paradasDicts dados = .ok ps2 ∧ resumoRow dados ps2 = .ok row ∧
        tempoTotalParadasVal dados ps2 = .ok ttp ∧
        row.get? 2 = some (.str (pystr (totalParadasVal dados ps2) ++ " (" ++
          pystr ttp ++ ")")) ∧
        Element.table resumoWidths [resumoHeader, row] ∈ buildRun dados) := by
  refine ⟨fun r hr => ?_, fun hnd => ?_, fun hb => ?_⟩
  · have hrv : resumoVal dados = .dict r := by
      unfold resumoVal
      rw [hr]
      cases r with
      | nil => simp [truthy]
      | cons kv rest => simp [truthy]
    have h0 : totalParadas0 dados = pyGet r "totalParadas" := by
      unfold totalParadas0
      rw [hrv]
    have h0t : tempoTotalParadas0 dados = pyGet r "tempoTotalParadas" := by
      unfold tempoTotalParadas0
      rw [hrv]
    constructor
    · intro hn
      unfold totalParadasVal
      rw [h0, hn]
      simp
    · intro hn
      unfold tempoTotalParadasVal
      rw [h0t, hn]
      simp [except_pure]
  · have h0 : totalParadas0 dados = .none ∧ tempoTotalParadas0 dados = .none := by
      unfold totalParadas0 tempoTotalParadas0 resumoVal
      cases hv : pyGet dados "resumoParadas" with
      | dict r => exact absurd hv (hnd r)
      | none => simp [truthy, pyGet]
      | bool b => cases b <;> simp [truthy, pyGet]
      | int n => cases ht : truthy (PyVal.int n) <;> simp [ht, pyGet]
      | float q => cases ht : truthy (PyVal.float q) <;> simp [ht, pyGet]
      | str s => cases ht : truthy (PyVal.str s) <;> simp [ht, pyGet]
      | list xs => cases ht : truthy (PyVal.list xs) <;> simp [ht, pyGet]
    refine ⟨h0.1, h0.2, ?_⟩
    unfold totalParadasVal
    rw [h0.1]
    simp [isNone]
  · obtain ⟨els, hels⟩ := buildOk_iff.mp hb
    obtain ⟨sEls, pEls, ps2, dEls, rEls, cEls, h1, h2, h3, h4, h5, h6, heq⟩ :=
      buildPdfElements_ok_eq hels
    obtain ⟨row, hrow, hrEls⟩ := summarySection_ok h5
    obtain ⟨ttp, httw, hrowEq⟩ := resumoRow_ok hrow
    refine ⟨ps2, row, ttp, h3, hrow, httw, ?_, ?_⟩
    · rw [hrowEq]
      rfl
    · rw [buildRun_eq hels, heq, hrEls]
      simp

/-- C10 witness: a supplied `resumoParadas` mapping overrides both summary
figures verbatim (even the unparseable `"09:99"`); a non-mapping value
falls back to the computed count. -/
theorem claim10_witness :
    (totalParadasVal [("resumoParadas",
        PyVal.dict [("totalParadas", PyVal.int 7),
                    ("tempoTotalParadas", PyVal.str "09:99")])] [] =
      pyGet [("totalParadas", PyVal.int 7), ("tempoTotalParadas", PyVal.str "09:99")]
        "totalParadas") ∧
    (tempoTotalParadasVal [("resumoParadas",
        PyVal.dict [("totalParadas", PyVal.int 7),
                    ("tempoTotalParadas", PyVal.str "09:99")])] [] =
      .ok (pyGet [("totalParadas", PyVal.int 7), ("tempoTotalParadas", PyVal.str "09:99")]
        "tempoTotalParadas")) ∧
    (totalParadas0 [("resumoParadas", PyVal.str "x")] = .none ∧
     tempoTotalParadas0 [("resumoParadas", PyVal.str "x")] = .none ∧
     totalParadasVal [("resumoParadas", PyVal.str "x")]
       [[("duracao", PyVal.str "01:00")]] = .int 1) := by
  refine ⟨?_, ?_, ?_⟩
  · exact ((claim10_theorem [("resumoParadas",
      PyVal.dict [("totalParadas", PyVal.int 7),
                  ("tempoTotalParadas", PyVal.str "09:99")])] []).1
      [("totalParadas", PyVal.int 7), ("tempoTotalParadas", PyVal.str "09:99")]
      (by rfl)).1 (by rfl)
  · exact ((claim10_theorem [("resumoParadas",
      PyVal.dict [("totalParadas", PyVal.int 7),
                  ("tempoTotalParadas", PyVal.str "09:99")])] []).1
      [("totalParadas", PyVal.int 7), ("tempoTotalParadas", PyVal.str "09:99")]
      (by rfl)).2 (by rfl)
  · exact (claim10_theorem [("resumoParadas", PyVal.str "x")]
      [[("duracao", PyVal.str "01:00")]]).2.1
      (fun r hr => by
        rw [show pyGet [("resumoParadas", PyVal.str "x")] "resumoParadas" =
          PyVal.str "x" from rfl] at hr
        exact PyVal.noConfusion hr)

/-! ## Claim C8 -/

/-- Saving truthy bodies appends the expected records. -/
theorem salvarFold_eq (items : List (PyVal × String)) (regs : List Registro)
    (h : ∀ x ∈ items, truthy x.1 = true) :
    salvarFold items regs = regs ++ mkRegs regs.length items := by
  induction items generalizing regs with
  | nil => simp [salvarFold, mkRegs]
  | cons x xs ih =>
    have hx : truthy x.1 = true := h x (by simp)
    have hstep : (salvar_registro (some x.1) x.2 regs).2 =
        regs ++ [⟨regs.length + 1, x.2, x.1⟩] := by
      simp [salvar_registro, hx]
    have htail := ih (regs ++ [⟨regs.length + 1, x.2, x.1⟩])
      (fun y hy => h y (List.mem_cons_of_mem _ hy))
    simp only [salvarFold, List.foldl_cons] at *
    rw [hstep, htail]
    simp [mkRegs]

/-- The ids of the produced records are consecutive. -/
theorem mkRegs_map_rid (off : Nat) (items : List (PyVal × String)) :
    (mkRegs off items).map Registro.rid = List.range' (off + 1) items.length := by
  induction items generalizing off with
  | nil => simp [mkRegs]
  | cons x xs ih => simp [mkRegs, List.range', ih]

/-- Lookup of a produced record by its position's id. -/
theorem obter_mkRegs_some (items : List (PyVal × String)) (off i : Nat)
    (hi : i < items.length) :
    obter_registro (mkRegs off items) (off + i + 1) =
      some ⟨off + i + 1, (items.get ⟨i, hi⟩).2, (items.get ⟨i, hi⟩).1⟩ := by
  induction items generalizing off i with
  | nil => exact absurd hi (by simp)
  | cons x xs ih =>
    cases i with
    | zero => simp [mkRegs, obter_registro, List.find?]
    | succ k =>
      have hne : ((off + 1 : Nat) == off + (k + 1) + 1) = false := by
        simp
      have hk : k < xs.length := by simpa using hi
      have := ih (off + 1) k hk
      simp only [mkRegs, obter_registro, List.find?, hne] at *
      simpa [show off + 1 + k + 1 = off + (k + 1) + 1 from by omega] using this

/-- Lookup of an id never assigned fails. -/
theorem obter_mkRegs_none (items : List (PyVal × String)) (off j : Nat)
    (hj : j ≤ off ∨ off + items.length < j) :
    obter_registro (mkRegs off items) j = Option.none := by
  induction items generalizing off with
  | nil => simp [mkRegs, obter_registro]
  | cons x xs ih =>
    have hne : ((off + 1 : Nat) == j) = false := by
      simp only [List.length_cons] at hj
      simp; omega
    have hj2 : j ≤ off + 1 ∨ off + 1 + xs.length < j := by
      simp only [List.length_cons] at hj
      omega
    have := ih (off + 1) hj2
    simp only [mkRegs, obter_registro, List.find?, hne] at *
    exact this

/-- C8: starting from the empty store, saving truthy bodies in sequence
assigns ids `1, 2, 3, ...` (`len + 1` at each step, first conjunct) in
submission order (second conjunct); `obter_registro` with id `i + 1` then
returns exactly the record submitted in position `i` (third conjunct),
and any id never assigned yields the 404 `None` (fourth conjunct). -/
theorem claim8_theorem (items : List (PyVal × String))
    (h : ∀ x ∈ items, truthy x.1 = true) :
    (∀ (regs : List Registro) (d : PyVal) (now : String), truthy d = true →
      salvar_registro (some d) now regs =
        (some (regs.length + 1), regs ++ [⟨regs.length + 1, now, d⟩])) ∧
    (salvarFold items []).map Registro.rid = List.range' 1 items.length ∧
    (∀ i (hi : i < items.length),
      obter_registro (salvarFold items []) (i + 1) =
        some ⟨i + 1, (items.get ⟨i, hi⟩).2, (items.get ⟨i, hi⟩).1⟩) ∧
    (∀ j : Nat, j = 0 ∨ items.length < j →
      obter_registro (salvarFold items []) j = Option.none) := by
  have hfold : salvarFold items [] = mkRegs 0 items := by
    simpa using salvarFold_eq items [] h
  refine ⟨fun regs d now hd => by simp [salvar_registro, hd], ?_, ?_, ?_⟩
  · rw [hfold]; simpa using mkRegs_map_rid 0 items
  · intro i hi
    rw [hfold]
    simpa using obter_mkRegs_some items 0 i hi
  · intro j hj
    rw [hfold]
    exact obter_mkRegs_none items 0 j (by omega)

/-- C8 witness (scenario D): three saved records get ids 1, 2, 3; id 2
returns the second record; id 4 was never assigned and yields 404. -/
theorem claim8_witness :
    (salvarFold [(PyVal.int 1, "t1"), (PyVal.int 2, "t2"), (PyVal.int 3, "t3")] []).map
        Registro.rid = [1, 2, 3] ∧
    obter_registro
        (salvarFold [(PyVal.int 1, "t1"), (PyVal.int 2, "t2"), (PyVal.int 3, "t3")] [])
        2 = some ⟨2, "t2", PyVal.int 2⟩ ∧
    obter_registro
        (salvarFold [(PyVal.int 1, "t1"), (PyVal.int 2, "t2"), (PyVal.int 3, "t3")] [])
        4 = Option.none := by
  refine ⟨?_, ?_, ?_⟩
  · have := (claim8_theorem [(PyVal.int 1, "t1"), (PyVal.int 2, "t2"), (PyVal.int 3, "t3")]
      (by decide)).2.1
    simpa using this
  · have := (claim8_theorem [(PyVal.int 1, "t1"), (PyVal.int 2, "t2"), (PyVal.int 3, "t3")]
      (by decide)).2.2.1 1 (by decide)
    simpa using this
  · exact (claim8_theorem [(PyVal.int 1, "t1"), (PyVal.int 2, "t2"), (PyVal.int 3, "t3")]
      (by decide)).2.2.2 4 (by decide)

/-! ## Claim C9 -/

/-- C9: both the PDF endpoint and the record-save endpoint reject with 400
every falsy body — any value with `truthy` false, in particular the empty
object, empty array, `0`, `false`, `null` and the empty string — as well
as an absent/unparseable body; the store is left unchanged and the
assembler is never reached (the 400 branch returns before
`_build_pdf_elements` is called). -/
theorem claim9_theorem :
    (∀ d : PyVal, truthy d = false →
      gerar_pdf (some d) = .ok .badRequest ∧
      ∀ (now : String) (regs : List Registro),
        salvar_registro (some d) now regs = (Option.none, regs)) ∧
    gerar_pdf Option.none = .ok .badRequest ∧
    (∀ (now : String) (regs : List Registro),
      salvar_registro Option.none now regs = (Option.none, regs)) ∧
    truthy (PyVal.dict []) = false ∧ truthy (PyVal.list []) = false ∧
    truthy (PyVal.int 0) = false ∧ truthy (PyVal.bool false) = false ∧
    truthy PyVal.none = false ∧ truthy (PyVal.str "") = false := by
  refine ⟨fun d h => ⟨?_, fun now regs => ?_⟩, rfl, fun now regs => rfl,
    rfl, rfl, rfl, rfl, rfl, rfl⟩
  · simp [gerar_pdf, h]
  · simp [salvar_registro, h]

/-- C9 witness: the empty object (scenario C) is rejected by both
endpoints. -/
theorem claim9_witness :
    gerar_pdf (some (PyVal.dict [])) = .ok .badRequest ∧
    salvar_registro (some (PyVal.dict [])) "t" [] = (Option.none, []) :=
  ⟨(claim9_theorem.1 (PyVal.dict []) rfl).1,
   (claim9_theorem.1 (PyVal.dict []) rfl).2 "t" []⟩

end PC
